import Mathlib

/-!
Verification development for the `scaqmd_sensor` repository: a shallow
embedding of the freshness-aware fetch/parse/cache engine
(`scaqmd.py`, `aqmd.py`, `scaqmd/sensor.py`) together with theorems
settling the frozen behavioural claims about it.

Conventions of the embedding:
* Python `dict`s are insertion-ordered association lists (`dictInsert`
  keeps the original position of an overwritten key, as CPython does).
* Python exceptions are modelled by `Except PyErr`; a raised exception
  aborts the enclosing operation exactly where the source raises it.
* `datetime` values are a record of calendar fields; timezone-aware
  values carry their UTC offset.  Instants are integer seconds.
* Byte payloads are strings (the feeds are UTF-8 text); CSV splitting is
  done character by character so that every definition evaluates inside
  the kernel.
-/

set_option autoImplicit false

/-- Python exception kinds that the embedded code can raise. -/
inductive PyErr where
  | valueError
  | keyError
  | indexError
  | typeError
  | stopIteration
  | nameError
  | attributeError
  deriving DecidableEq, Repr

/-- Insertion-ordered dictionary update: overwriting an existing key keeps
its original position (CPython `dict` semantics). -/
def dictInsert {α β : Type} [DecidableEq α] (k : α) (v : β) :
    List (α × β) → List (α × β)
  | [] => [(k, v)]
  | (k', v') :: rest =>
      if k' = k then (k, v) :: rest else (k', v') :: dictInsert k v rest

/-- Dictionary lookup (`d.get(k)` / `d[k]`). -/
def dictLookup {α β : Type} [DecidableEq α] (k : α) :
    List (α × β) → Option β
  | [] => none
  | (k', v') :: rest => if k' = k then some v' else dictLookup k rest

/-- First index of an element in a list (`list.index`), `none` when absent. -/
def listIndex (xs : List String) (x : String) : Option Nat :=
  match xs with
  | [] => none
  | y :: ys => if y = x then some 0 else (listIndex ys x).map (· + 1)

/-- Whitespace recognised by Python's `str.strip`. -/
def isPySpace (c : Char) : Bool :=
  c = ' ' ∨ c = '\t' ∨ c = '\n' ∨ c = '\r'

/-- `str.split(sep)` on a character list: `"".split(sep) == ['']`. -/
def splitChar (sep : Char) : List Char → List (List Char)
  | [] => [[]]
  | c :: rest =>
      match splitChar sep rest with
      | [] => [[]]
      | g :: gs => if c = sep then [] :: g :: gs else (c :: g) :: gs

/-- `str.strip()` on a character list. -/
def trimChars (cs : List Char) : List Char :=
  ((cs.dropWhile isPySpace).reverse.dropWhile isPySpace).reverse

/-- `str.strip()` for strings. -/
def pyStrip (s : String) : String := ⟨trimChars s.data⟩

/-- `bytes.decode('utf-8-sig')`: drop one leading byte-order mark. -/
def decodeUtf8Sig (s : String) : String :=
  match s.data with
  | c :: rest => if c = '\uFEFF' then ⟨rest⟩ else s
  | [] => s

/-- Digit-string to number; `none` when empty or containing a non-digit. -/
def digitsToNat? : List Char → Option Nat
  | [] => none
  | cs => go cs 0
where
  go : List Char → Nat → Option Nat
    | [], acc => some acc
    | c :: rest, acc =>
        if c.isDigit then go rest (acc * 10 + (c.toNat - '0'.toNat)) else none

/-- Python `int(str)`: optional surrounding whitespace, optional sign,
then decimal digits; anything else raises `ValueError` (here `none`). -/
def pyInt (s : String) : Option Int :=
  match trimChars s.data with
  | '-' :: ds => (digitsToNat? ds).map (fun n => -(n : Int))
  | '+' :: ds => (digitsToNat? ds).map (fun n => (n : Int))
  | ds => (digitsToNat? ds).map (fun n => (n : Int))

/-- One CSV record from one line, as produced by `csv.reader`: an empty
line yields the empty record, otherwise the comma-separated cells.
(The feeds use no quoting, so plain comma splitting is exact here.) -/
def csvRowChars (l : List Char) : List String :=
  if l = [] then [] else (splitChar ',' l).map String.mk

/-- Calendar date and time of day, the fields of a Python `datetime`. -/
structure Datetime where
  year : Nat
  month : Nat
  day : Nat
  hour : Nat
  minute : Nat
  second : Nat
  deriving DecidableEq, Repr

/-- A Python `datetime` object: naive (`offsetMin = none`) or aware of a
fixed UTC offset in minutes. -/
structure PyDatetime where
  dt : Datetime
  offsetMin : Option Int
  deriving DecidableEq, Repr

/-- Proleptic-Gregorian leap-year rule. -/
def isLeap (y : Nat) : Bool :=
  y % 4 = 0 ∧ (y % 100 ≠ 0 ∨ y % 400 = 0)

/-- Length of a month. -/
def daysInMonth (y m : Nat) : Nat :=
  if m = 2 then (if isLeap y then 29 else 28)
  else if m = 4 ∨ m = 6 ∨ m = 9 ∨ m = 11 then 30
  else 31

/-- The `datetime(...)` constructor: validates every field (this is where
CPython raises `ValueError`, e.g. for `hour = 24`). -/
def pyDatetime (y mo d h mi s : Nat) : Option Datetime :=
  if 1 ≤ y ∧ y ≤ 9999 ∧ 1 ≤ mo ∧ mo ≤ 12 ∧ 1 ≤ d ∧ d ≤ daysInMonth y mo
      ∧ h ≤ 23 ∧ mi ≤ 59 ∧ s ≤ 59 then
    some ⟨y, mo, d, h, mi, s⟩
  else
    none

/-- Days since 1970-01-01 of a civil date (standard civil-calendar
conversion). -/
def daysFromCivil (y mo d : Nat) : Int :=
  let yi : Int := if mo ≤ 2 then (y : Int) - 1 else (y : Int)
  let era : Int := Int.fdiv yi 400
  let yoe : Int := yi - era * 400
  let mp : Int := Int.emod ((mo : Int) + 9) 12
  let doy : Int := Int.fdiv (153 * mp + 2) 5 + (d : Int) - 1
  let doe : Int := yoe * 365 + Int.fdiv yoe 4 - Int.fdiv yoe 100 + doy
  era * 146097 + doe - 719468

/-- Civil date of a day count since 1970-01-01 (inverse of
`daysFromCivil`). -/
def civilFromDays (z : Int) : Nat × Nat × Nat :=
  let z' := z + 719468
  let era := Int.fdiv z' 146097
  let doe := z' - era * 146097
  let yoe := Int.fdiv (doe - Int.fdiv doe 1460 + Int.fdiv doe 36524 - Int.fdiv doe 146096) 365
  let y := yoe + era * 400
  let doy := doe - (365 * yoe + Int.fdiv yoe 4 - Int.fdiv yoe 100)
  let mp := Int.fdiv (5 * doy + 2) 153
  let d := doy - Int.fdiv (153 * mp + 2) 5 + 1
  let m := mp + (if mp < 10 then 3 else -9)
  ((y + (if m ≤ 2 then 1 else 0)).toNat, m.toNat, d.toNat)

/-- Seconds since 1970-01-01T00:00:00 of a naive datetime's fields. -/
def dtToSec (d : Datetime) : Int :=
  daysFromCivil d.year d.month d.day * 86400
    + (d.hour : Int) * 3600 + (d.minute : Int) * 60 + (d.second : Int)

/-- Naive datetime fields of a seconds-since-epoch instant. -/
def secToDt (t : Int) : Datetime :=
  let days := Int.fdiv t 86400
  let rem := (Int.emod t 86400).toNat
  let c := civilFromDays days
  ⟨c.1, c.2.1, c.2.2, rem / 3600, rem % 3600 / 60, rem % 60⟩

/-- UTC instant (seconds since epoch) of an aware datetime; a naive value
is treated as UTC (Python would refuse the comparison instead). -/
def awInstant (a : PyDatetime) : Int :=
  dtToSec a.dt - (a.offsetMin.getD 0) * 60

/-- United States daylight-saving rule used by America/Los_Angeles since
2007: DST from 02:00 local on the second Sunday of March to 02:00 local
on the first Sunday of November.  Models `pytz` for the dates the feeds
carry. -/
def isDstLA (d : Datetime) : Bool :=
  let y := d.year
  let mar1dow := Int.emod (daysFromCivil y 3 1 + 4) 7
  let ssm := (1 + Int.emod (7 - mar1dow) 7 + 7).toNat
  let nov1dow := Int.emod (daysFromCivil y 11 1 + 4) 7
  let fsn := (1 + Int.emod (7 - nov1dow) 7).toNat
  dtToSec ⟨y, 3, ssm, 2, 0, 0⟩ ≤ dtToSec d ∧ dtToSec d < dtToSec ⟨y, 11, fsn, 2, 0, 0⟩

/-- UTC offset in minutes of America/Los_Angeles for a naive local time
(`-420` during daylight saving, `-480` otherwise). -/
def laOffsetMin (d : Datetime) : Int :=
  if isDstLA d then -420 else -480

/-- `DEFAULT_TIMEZONE.localize(value)`: attach the Los Angeles offset to a
naive local datetime, keeping its fields. -/
def localizeLA (d : Datetime) : PyDatetime :=
  ⟨d, some (laOffsetMin d)⟩

/-- `value.astimezone(pytz.utc)`: re-express an aware datetime in UTC. -/
def astimezoneUtc (a : PyDatetime) : PyDatetime :=
  ⟨secToDt (awInstant a), some 0⟩

deriving instance DecidableEq for Except

/-- A parsed cell value as stored in a station row (Python values are
heterogeneous; `vnone` is Python `None`). -/
inductive Value where
  | str (s : String)
  | int (n : Int)
  | dt (d : PyDatetime)
  | vnone
  deriving DecidableEq, Repr

/-- One parsed station row: column name to value, insertion ordered. -/
abbrev Row := List (String × Value)

/-- A station table keyed by the value of the `sra` column. -/
abbrev Table := List (Value × Row)

/-- `homeassistant.util.dt.parse_datetime` on the feed's ISO-8601 form
`YYYY-MM-DDTHH:MM:SS[.fff]Z`; `none` for anything else (the helper
returns `None` rather than raising). -/
def parse_datetime (s : String) : Option PyDatetime :=
  match s.data.reverse with
  | 'Z' :: revCore =>
      match splitChar '.' revCore.reverse with
      | core :: _ =>
          match splitChar 'T' core with
          | [datePart, timePart] =>
              match splitChar '-' datePart, splitChar ':' timePart with
              | [ys, mos, ds], [hs, mis, ses] => do
                  let y ← digitsToNat? ys
                  let mo ← digitsToNat? mos
                  let d ← digitsToNat? ds
                  let h ← digitsToNat? hs
                  let mi ← digitsToNat? mis
                  let se ← digitsToNat? ses
                  let dt ← pyDatetime y mo d h mi se
                  pure ⟨dt, some 0⟩
              | _, _ => none
          | _ => none
      | [] => none
  | _ => none

/-- `datetime.strptime(value, '%m/%d/%Y')`: month/day/year, midnight;
`none` models the `ValueError` CPython raises on a mismatch. -/
def pyStrptimeMDY (s : String) : Option Datetime :=
  match splitChar '/' s.data with
  | [ms, ds, ys] => do
      let mo ← digitsToNat? ms
      let d ← digitsToNat? ds
      let y ← digitsToNat? ys
      pyDatetime y mo d 0 0 0
  | _ => none

/-- One iteration of the column loop of `scaqmd.parse_aqi_csv`: parse one
`(name, value)` cell into `parsed_row`. -/
def parseCellSc (parsed : Row) (name value : String) : Except PyErr Row :=
  if name = "current_datetime" then
    .ok (dictInsert name (match parse_datetime value with
                          | some d => .dt d
                          | none => .vnone) parsed)
  else if name = "date" then
    match pyStrptimeMDY value with
    | some d => .ok (dictInsert name (Value.dt (localizeLA d)) parsed)
    | none => .error .valueError
  else if name = "aqi" ∨ name = "sra" then
    match pyInt value with
    | some n => .ok (dictInsert name (Value.int n) parsed)
    | none => .error .valueError
  else if name = "Shape__Area" ∨ name = "Shape__Length" then
    .ok parsed
  else
    .ok (dictInsert name (Value.str value) parsed)

/-- `scaqmd.parse_aqi_csv`: decode UTF-8 with BOM removal, strip, split
into lines, take the first record as the header, and build the
station-keyed table; any exception raised while handling a row aborts
the whole parse. -/
def parse_aqi_csv (text : String) : Except PyErr Table :=
  let body := pyStrip (decodeUtf8Sig text)
  let rows := (splitChar '\n' body.data).map csvRowChars
  let columns := rows.headD []
  rows.tail.foldlM
    (fun results row =>
      if row.length > 0 then do
        let parsed_row ← (columns.zip row).foldlM
          (fun parsed p => parseCellSc parsed p.1 p.2) ([] : Row)
        match dictLookup "sra" parsed_row with
        | some k => .ok (dictInsert k parsed_row results)
        | none => .error .keyError
      else
        .ok results)
    ([] : Table)

/-- `dateutil.parser.parse` for the two formats the feeds carry: the
ISO-8601 `Z` form (parsed aware) and `M/D/YYYY` (parsed naive); `none`
models the `ValueError` raised for anything else. -/
def dateutilParse (s : String) : Option PyDatetime :=
  match parse_datetime s with
  | some d => some d
  | none => (pyStrptimeMDY s).map (fun d => ⟨d, none⟩)

/-- `aqmd.CURRENT_LABELS`. -/
def CURRENT_LABELS : List String :=
  ["sra", "name", "aqi", "current_datetime", "category_desc", "pollutant_desc", "link"]

/-- `aqmd.FORECAST_LABELS`. -/
def FORECAST_LABELS : List String :=
  ["sra", "name", "aqi", "date", "category_desc", "pollutant_desc"]

/-- The records `csv.reader(text.split('\n'))` yields for
`aqmd.parse_aqi_csv` (which applies no BOM removal and no strip). -/
def aqmdRows (text : String) : List (List String) :=
  (splitChar '\n' text.data).map csvRowChars

/-- The header record of a payload as `aqmd.parse_aqi_csv` reads it:
`next(data)`, i.e. the first record. -/
def aqmdHeader (text : String) : List String :=
  (aqmdRows text).headD []

/-- Column resolution of `aqmd.parse_aqi_csv`: label to `header.index`,
in label order; a missing label raises `ValueError`. -/
def aqmdColumns (header : List String) (labels : List String) :
    Except PyErr (List (String × Nat)) :=
  labels.foldlM
    (fun cols label =>
      match listIndex header label with
      | some i => .ok (dictInsert label i cols)
      | none => .error .valueError)
    ([] : List (String × Nat))

/-- One iteration of the label loop of `aqmd.parse_aqi_csv`: fetch the
cell at the label's column index (`IndexError` when the row is short)
and parse it by label. -/
def parseCellAqmd (parsed : Row) (row : List String) (label : String)
    (idx : Nat) : Except PyErr Row :=
  match row.get? idx with
  | none => .error .indexError
  | some v =>
      if label = "date" ∨ label = "current_datetime" then
        match dateutilParse v with
        | some d => .ok (dictInsert label (Value.dt d) parsed)
        | none => .error .valueError
      else if label = "aqi" ∨ label = "sra" then
        match pyInt v with
        | some n => .ok (dictInsert label (Value.int n) parsed)
        | none => .error .valueError
      else
        .ok (dictInsert label (Value.str v) parsed)

/-- `aqmd.parse_aqi_csv(text, labels)`: no BOM or strip handling, required
columns resolved through `header.index` (so a missing column — or a
missing header line, whose labels are then all absent — raises), rows
keyed by the parsed `sra` value. -/
def aqmd_parse_aqi_csv (text : String) (labels : List String) :
    Except PyErr Table := do
  let columns ← aqmdColumns (aqmdHeader text) labels
  (aqmdRows text).tail.foldlM
    (fun results row =>
      if row.length > 0 then do
        let parsed_row ← columns.foldlM
          (fun parsed p => parseCellAqmd parsed row p.1 p.2) ([] : Row)
        match dictLookup "sra" parsed_row with
        | some k => .ok (dictInsert k parsed_row results)
        | none => .error .keyError
      else
        .ok results)
    ([] : Table)

/-- `scaqmd.SCAQMDFile`: one cache entry. -/
structure SCAQMDFile where
  table : Table
  is_current : Bool
  last_updated : Int
  valid_timestamp : Value
  deriving DecidableEq, Repr

/-- A `scaqmd.SCAQMDCache`'s storage: source URL to entry. -/
abbrev Cache := List (String × SCAQMDFile)

/-- `SCAQMDCache.__setitem__`: parse the payload, classify it by the
presence of `current_datetime` in the first-inserted row, read the
data-embedded timestamp, and store the entry; `now` is the wall clock
stored as `last_updated` (`time.time()`). Raises `StopIteration` at
`next(iter(table.keys()))` when the parsed table has no rows. -/
def SCAQMDCache.setitem (cache : Cache) (key : String) (value : String)
    (now : Int) : Except PyErr Cache :=
  match parse_aqi_csv value with
  | .error e => .error e
  | .ok [] => .error .stopIteration
  | .ok (table@((_, first) :: _)) =>
      match (if (dictLookup "current_datetime" first).isSome
             then dictLookup "current_datetime" first
             else dictLookup "date" first) with
      | none => .error .keyError
      | some timestamp =>
          .ok (dictInsert key
            ⟨table, (dictLookup "current_datetime" first).isSome, now, timestamp⟩
            cache)

/-- `SCAQMDCache.__setitem__` as a state transformer: on an exception the
cache is left exactly as it was. -/
def SCAQMDCache.setitemRun (cache : Cache) (key : String) (value : String)
    (now : Int) : Except PyErr Unit × Cache :=
  match SCAQMDCache.setitem cache key value now with
  | .error e => (.error e, cache)
  | .ok c => (.ok (), c)

/-- `SCAQMDSensor.next_update`: for a current entry the hour after the
valid timestamp built with `datetime(y, m, d, hour + 1, tzinfo=utc)`
(whose constructor raises `ValueError` when `hour + 1 = 24`); for a
forecast entry noon of the valid timestamp's own calendar date,
localised to America/Los_Angeles and converted to UTC. -/
def SCAQMDSensor.next_update (f : SCAQMDFile) : Except PyErr PyDatetime :=
  match f.valid_timestamp with
  | .dt t =>
      if f.is_current then
        match pyDatetime t.dt.year t.dt.month t.dt.day (t.dt.hour + 1) 0 0 with
        | some d => .ok ⟨d, some 0⟩
        | none => .error .valueError
      else
        match pyDatetime t.dt.year t.dt.month t.dt.day 12 0 0 with
        | some d => .ok (astimezoneUtc (localizeLA d))
        | none => .error .valueError
  | _ => .error .attributeError

/-- `scaqmd.MIN_TIME_BETWEEN_UPDATES` (10 minutes), in seconds. -/
def MIN_TIME_BETWEEN_UPDATES : Int := 600

/-- System state around one `SCAQMDCache`: its storage, the wall-clock
time of the last fetch attempt (the throttle's memory), and how many
network fetches have been performed. -/
structure SysState where
  cache : Cache
  lastFetch : Option Int
  fetches : Nat
  deriving DecidableEq, Repr

/-- `SCAQMDCache._update_aqi`: perform the network GET (counted, and
remembered as the last fetch attempt) and store the response through
`__setitem__`; `payload` is the body the network would return. -/
def update_aqi_run (st : SysState) (url payload : String) (now : Int) :
    Except PyErr Unit × SysState :=
  let st₁ : SysState :=
    { st with fetches := st.fetches + 1, lastFetch := some now }
  match SCAQMDCache.setitem st₁.cache url payload now with
  | .error e => (.error e, st₁)
  | .ok c => (.ok (), { st₁ with cache := c })

/-- `SCAQMDCache.__getitem__`: serve the stored entry when the key is
present — with no freshness check of any kind — and fetch only on a
miss. -/
def cache_getitem (st : SysState) (url payload : String) (now : Int) :
    Except PyErr SCAQMDFile × SysState :=
  match dictLookup url st.cache with
  | some e => (.ok e, st)
  | none =>
      match update_aqi_run st url payload now with
      | (.error e, st₁) => (.error e, st₁)
      | (.ok _, st₁) =>
          match dictLookup url st₁.cache with
          | some e => (.ok e, st₁)
          | none => (.error .keyError, st₁)

/-- Modelled from the spec: `homeassistant.util.Throttle`, an external
collaborator, as §4.4 describes it — "a fetch is not re-attempted
within a fixed minimum interval (e.g., 10 minutes) of the previous
fetch attempt". -/
def throttleAllows (st : SysState) (now : Int) : Bool :=
  match st.lastFetch with
  | none => true
  | some t => MIN_TIME_BETWEEN_UPDATES ≤ now - t

/-- `SCAQMDSensor.update`: read the cached entry (fetching on a miss),
and refetch through `_update_aqi` when the wall clock is strictly past
`next_update`, subject to the throttle. -/
def sensor_update (st : SysState) (url payload : String) (now : Int) :
    Except PyErr Unit × SysState :=
  match cache_getitem st url payload now with
  | (.error e, st₁) => (.error e, st₁)
  | (.ok entry, st₁) =>
      match SCAQMDSensor.next_update entry with
      | .error e => (.error e, st₁)
      | .ok nu =>
          if awInstant nu < now then
            if throttleAllows st₁ now then update_aqi_run st₁ url payload now
            else (.ok (), st₁)
          else (.ok (), st₁)

/-- `SCAQMDSensor.station`: `table.get(station_id)` on the cached entry,
`None` (not an exception) when the station id is absent. -/
def sensor_station (st : SysState) (url payload : String) (now : Int)
    (sid : Int) : Except PyErr (Option Row) × SysState :=
  match cache_getitem st url payload now with
  | (.error e, st₁) => (.error e, st₁)
  | (.ok entry, st₁) => (.ok (dictLookup (Value.int sid) entry.table), st₁)

/-- `SCAQMDSensor.state`: `self.station['aqi']`; subscripting the `None`
returned for an absent station raises `TypeError`. -/
def sensor_state (st : SysState) (url payload : String) (now : Int)
    (sid : Int) : Except PyErr Value × SysState :=
  match sensor_station st url payload now sid with
  | (.error e, st₁) => (.error e, st₁)
  | (.ok none, st₁) => (.error .typeError, st₁)
  | (.ok (some r), st₁) =>
      match dictLookup "aqi" r with
      | none => (.error .keyError, st₁)
      | some v => (.ok v, st₁)

/-- `scaqmd.sensor.CurrentAQI`: instance state of the scraped-page
sensor.  Naive datetimes are instants in seconds; `update_delay` and
`backoff_delay` are the constructor's 4000 s and 500 s. -/
structure CurrentAQI where
  last_update : Int
  next_update : Int
  update_delay : Int
  backoff_delay : Int
  name : Option String
  carbon_monoxide : Option Int
  nitrogen_dioxide : Option Int
  ozone : Option Int
  particulate_matter_2_5 : Option Int
  particulate_matter_10 : Option Int
  deriving DecidableEq, Repr

/-- The pollutant codes of the scraped table. -/
inductive Pollutant where
  | ozone
  | pm25
  | pm10
  | no2
  | co
  deriving DecidableEq, Repr

/-- The `setters` mapping of `CurrentAQI.parse_aqi`. -/
def setters (code : String) : Option Pollutant :=
  if code = "O3" then some .ozone
  else if code = "PM2.5" then some .pm25
  else if code = "PM10" then some .pm10
  else if code = "NO2" then some .no2
  else if code = "CO" then some .co
  else none

/-- `self.__setattr__(attr_name, value)` for a pollutant field. -/
def setPollutant (s : CurrentAQI) (p : Pollutant) (v : Int) : CurrentAQI :=
  match p with
  | .ozone => { s with ozone := some v }
  | .pm25 => { s with particulate_matter_2_5 := some v }
  | .pm10 => { s with particulate_matter_10 := some v }
  | .no2 => { s with nitrogen_dioxide := some v }
  | .co => { s with carbon_monoxide := some v }

/-- The tail of one `parse_aqi` row iteration: `attr_name =
setters.get(parsed_row[0])` followed by the dynamic
`self.__setattr__(attr_name, value)`; `vw` is the pair of the local
variable `value` (never yet bound when `none`, in which case the
assignment raises `NameError`) and the warning count. -/
def parse_aqi_assign (s : CurrentAQI) (p0 : String) (vw : Option Int × Nat) :
    Except PyErr (CurrentAQI × Option Int × Nat) :=
  match setters p0 with
  | none => .ok (s, vw.1, vw.2)
  | some p =>
      match vw.1 with
      | none => .error .nameError
      | some v => .ok (setPollutant s p v, vw.1, vw.2)

/-- One data row of `CurrentAQI.parse_aqi`.  The fold state carries the
Python local variable `value` (`none` = not yet bound in this call) and
the number of warnings logged.  `int(parsed_row[1])` raises `IndexError`
past the `except ValueError` handler when the row has fewer than two
non-empty cells; a failed `int` logs a warning and leaves `value` bound
to whatever the previous iteration parsed (`parse_aqi_assign` then
assigns it to the row's pollutant field); an unbound `value` raises
`NameError` at the assignment. -/
def parse_aqi_row (s : CurrentAQI) (value : Option Int) (warnings : Nat)
    (row : List String) : Except PyErr (CurrentAQI × Option Int × Nat) :=
  match (row.map pyStrip).filter (fun t => t.data.length > 0) with
  | p0 :: p1 :: _ =>
      parse_aqi_assign s p0
        (match pyInt p1 with
         | some v => (some v, warnings)
         | none => (value, warnings + 1))
  | _ => .error .indexError

/-- `CurrentAQI.parse_aqi` over the data rows of the second table (the
rows after the header, each given as its non-empty cell texts); returns
the updated sensor together with the number of warnings logged. -/
def parse_aqi (s : CurrentAQI) (rows : List (List String)) :
    Except PyErr (CurrentAQI × Nat) :=
  (rows.foldlM
      (fun (acc : CurrentAQI × Option Int × Nat) row =>
        parse_aqi_row acc.1 acc.2.1 acc.2.2 row)
      (s, none, 0)).map
    (fun acc => (acc.1, acc.2.2))

/-- `CurrentAQI.parse_report_time`, given the report timestamp parsed
from the "Reading Date Time" label: record it and set `next_update`
to `ts + update_delay`. -/
def parse_report_time (s : CurrentAQI) (ts : Int) : CurrentAQI :=
  { s with last_update := ts, next_update := ts + s.update_delay }

/-- `CurrentAQI.async_update`: refetch only when now is strictly past
`next_update`; re-derive the report time and pollutant table from the
page (`ts` the parsed report timestamp, `rows` the data rows,
`pageName` the station name the page carries); add the backoff delay
when `next_update` is unchanged by the parse; fill in the name once. -/
def async_update (s : CurrentAQI) (now : Int) (ts : Int)
    (rows : List (List String)) (pageName : Option String) :
    Except PyErr CurrentAQI :=
  if s.next_update < now then
    let next_update_cache := s.next_update
    let s₁ := parse_report_time s ts
    match parse_aqi s₁ rows with
    | .error e => .error e
    | .ok (s₂, _) =>
        let s₃ := if s₂.next_update = next_update_cache then
            { s₂ with next_update := s₂.next_update + s₂.backoff_delay }
          else s₂
        .ok (if s₃.name = none then { s₃ with name := pageName } else s₃)
  else
    .ok s

/-- The sub-indices currently present, in the order
`CurrentAQI.air_quality_index` collects them. -/
def presentSubindices (s : CurrentAQI) : List Int :=
  [s.carbon_monoxide, s.nitrogen_dioxide, s.ozone,
    s.particulate_matter_2_5, s.particulate_matter_10].filterMap id

/-- `CurrentAQI.air_quality_index`: `max` of the non-`None` sub-indices,
an implicit `None` when the list is empty. -/
def air_quality_index (s : CurrentAQI) : Option Int :=
  (presentSubindices s).max?

instance : Std.Antisymm (fun (x y : Int) => x ≤ y) := ⟨fun h h2 => le_antisymm h h2⟩

theorem dictLookup_dictInsert {α β : Type} [DecidableEq α] (k : α) (v : β)
    (l : List (α × β)) : dictLookup k (dictInsert k v l) = some v := by
  induction l with
  | nil => simp [dictInsert, dictLookup]
  | cons hd tl ih =>
      obtain ⟨k1, v1⟩ := hd
      by_cases h : k1 = k
      · simp [dictInsert, dictLookup, h]
      · simp [dictInsert, dictLookup, h, ih]

theorem setPollutant_times (s : CurrentAQI) (p : Pollutant) (v : Int) :
    (setPollutant s p v).last_update = s.last_update
    ∧ (setPollutant s p v).next_update = s.next_update
    ∧ (setPollutant s p v).update_delay = s.update_delay
    ∧ (setPollutant s p v).backoff_delay = s.backoff_delay := by
  cases p <;> exact ⟨rfl, rfl, rfl, rfl⟩

theorem parse_aqi_row_times (s : CurrentAQI) (val : Option Int) (w : Nat)
    (row : List String) (s2 : CurrentAQI) (v2 : Option Int) (w2 : Nat)
    (h : parse_aqi_row s val w row = .ok (s2, v2, w2)) :
    s2.last_update = s.last_update ∧ s2.next_update = s.next_update
    ∧ s2.update_delay = s.update_delay ∧ s2.backoff_delay = s.backoff_delay := by
  unfold parse_aqi_row at h
  split at h
  case h_1 p0 p1 rest =>
    unfold parse_aqi_assign at h
    split at h
    · cases h
      exact ⟨rfl, rfl, rfl, rfl⟩
    · split at h
      · cases h
      · cases h
        exact setPollutant_times ..
  case h_2 => cases h

theorem parse_aqi_times (rows : List (List String)) :
    ∀ (acc : CurrentAQI × Option Int × Nat) (acc2 : CurrentAQI × Option Int × Nat),
    List.foldlM (fun (a : CurrentAQI × Option Int × Nat) row =>
        parse_aqi_row a.1 a.2.1 a.2.2 row) acc rows = .ok acc2 →
    acc2.1.last_update = acc.1.last_update ∧ acc2.1.next_update = acc.1.next_update
    ∧ acc2.1.update_delay = acc.1.update_delay
    ∧ acc2.1.backoff_delay = acc.1.backoff_delay := by
  induction rows with
  | nil =>
      intro acc acc2 h
      cases h
      exact ⟨rfl, rfl, rfl, rfl⟩
  | cons r rs ih =>
      intro acc acc2 h
      rw [List.foldlM_cons] at h
      rcases hr : parse_aqi_row acc.1 acc.2.1 acc.2.2 r with e | acc1
      · rw [hr] at h
        cases h
      · rw [hr] at h
        have step := parse_aqi_row_times acc.1 acc.2.1 acc.2.2 r acc1.1 acc1.2.1 acc1.2.2 hr
        have rest := ih acc1 acc2 h
        exact ⟨rest.1.trans step.1, rest.2.1.trans step.2.1,
          rest.2.2.1.trans step.2.2.1, rest.2.2.2.trans step.2.2.2⟩

theorem parse_aqi_times_top (s : CurrentAQI) (rows : List (List String))
    (s2 : CurrentAQI) (w : Nat) (h : parse_aqi s rows = .ok (s2, w)) :
    s2.last_update = s.last_update ∧ s2.next_update = s.next_update
    ∧ s2.update_delay = s.update_delay ∧ s2.backoff_delay = s.backoff_delay := by
  unfold parse_aqi at h
  rcases hf : List.foldlM (fun (a : CurrentAQI × Option Int × Nat) row =>
      parse_aqi_row a.1 a.2.1 a.2.2 row) (s, none, 0) rows with e | acc2
  · rw [hf] at h
    cases h
  · rw [hf] at h
    cases h
    exact parse_aqi_times rows (s, none, 0) acc2 hf

theorem async_update_next (s : CurrentAQI) (now ts : Int)
    (rows : List (List String)) (pageName : Option String)
    (s2 : CurrentAQI) (w : Nat)
    (hnow : s.next_update < now)
    (hparse : parse_aqi (parse_report_time s ts) rows = .ok (s2, w)) :
    (async_update s now ts rows pageName).map
        (fun x => (x.last_update, x.next_update))
      = .ok (ts, if ts + s.update_delay = s.next_update
                 then ts + s.update_delay + s.backoff_delay
                 else ts + s.update_delay) := by
  have times := parse_aqi_times_top (parse_report_time s ts) rows s2 w hparse
  have hlast : s2.last_update = ts := times.1
  have hnext : s2.next_update = ts + s.update_delay := times.2.1
  have hback : s2.backoff_delay = s.backoff_delay := times.2.2.2
  unfold async_update
  rw [if_pos hnow]
  simp only [hparse]
  by_cases hsame : s2.next_update = s.next_update
  · rw [if_pos hsame,
      if_pos (show ts + s.update_delay = s.next_update by rw [← hnext]; exact hsame)]
    split <;> simp [Except.map, hlast, hnext, hback]
  · rw [if_neg hsame,
      if_neg (show ¬ ts + s.update_delay = s.next_update by rw [← hnext]; exact hsame)]
    split <;> simp [Except.map, hlast, hnext]

theorem aqmdColumns_go_missing (header : List String) (lab : String)
    (hidx : listIndex header lab = none) :
    ∀ (labels : List String), lab ∈ labels →
    ∀ (cols : List (String × Nat)),
    List.foldlM (fun cols label =>
        match listIndex header label with
        | some i => Except.ok (dictInsert label i cols)
        | none => Except.error PyErr.valueError) cols labels
      = .error .valueError := by
  intro labels
  induction labels with
  | nil => intro hmem; cases hmem
  | cons l ls ih =>
      intro hmem cols
      rw [List.foldlM_cons]
      rcases hml : listIndex header l with _ | i
      · rfl
      · have hne : lab ≠ l := by
          intro e
          rw [e, hml] at hidx
          cases hidx
        have hmem2 : lab ∈ ls := by
          cases hmem with
          | head => exact absurd rfl hne
          | tail _ h => exact h
        exact ih hmem2 (dictInsert l i cols)

theorem aqmdColumns_missing (header : List String) (labels : List String)
    (lab : String) (hmem : lab ∈ labels)
    (hidx : listIndex header lab = none) :
    aqmdColumns header labels = .error .valueError := by
  unfold aqmdColumns
  exact aqmdColumns_go_missing header lab hidx labels hmem []

theorem aqmd_parse_missing_column (text : String) (labels : List String)
    (lab : String) (hmem : lab ∈ labels)
    (hidx : listIndex (aqmdHeader text) lab = none) :
    aqmd_parse_aqi_csv text labels = .error .valueError := by
  unfold aqmd_parse_aqi_csv
  rw [aqmdColumns_missing _ _ lab hmem hidx]
  rfl

/-- A current-mode payload in the feed's shape (the 2018-06-24T21:00Z
fixture timestamp of the repository's tests). -/
def currentPayload : String := "sra,aqi,current_datetime\n3,33,2018-06-24T21:00:00.000Z"

/-- A forecast-mode payload with the fixture date 2018-06-25. -/
def forecastPayload : String := "sra,aqi,date\n3,48,6/25/2018"

/-- A payload consisting of only a header row. -/
def headerOnlyPayload : String :=
  "sra,name,aqi,current_datetime,category_desc,pollutant_desc,link"

/-- A well-formed forecast payload carrying every forecast label. -/
def goodForecastPayload : String :=
  "sra,name,aqi,date,category_desc,pollutant_desc\n3,Town,48,6/25/2018,Good,O3"

/-- The valid timestamp parsed from `currentPayload`. -/
def ts2100 : Value := .dt ⟨⟨2018, 6, 24, 21, 0, 0⟩, some 0⟩

/-- The table parsed from `currentPayload`. -/
def tbl331 : Table :=
  [(.int 3, [("sra", .int 3), ("aqi", .int 33),
    ("current_datetime", .dt ⟨⟨2018, 6, 24, 21, 0, 0⟩, some 0⟩)])]

/-- A cache entry as stored for `currentPayload`. -/
def entry2100 : SCAQMDFile := ⟨tbl331, true, 1529874000, ts2100⟩

/-- A scraped sensor state as left by a first fetch at report time 0. -/
def sAqi0 : CurrentAQI :=
  ⟨0, 4000, 4000, 500, some "Pomona-Walnut Valley", none, none, none, none, none⟩

theorem next_update_last_updated (tbl : Table) (b : Bool) (lu1 lu2 : Int)
    (ts : Value) :
    SCAQMDSensor.next_update ⟨tbl, b, lu1, ts⟩
      = SCAQMDSensor.next_update ⟨tbl, b, lu2, ts⟩ := rfl

/-- The `is_current` flag `__setitem__` derives from a parsed table. -/
def tableIsCurrent (table : Table) : Bool :=
  match table with
  | [] => false
  | (_, first) :: _ => (dictLookup "current_datetime" first).isSome

/-- The valid timestamp `__setitem__` derives from a parsed table. -/
def tableTimestamp (table : Table) : Option Value :=
  match table with
  | [] => none
  | (_, first) :: _ =>
      if (dictLookup "current_datetime" first).isSome
      then dictLookup "current_datetime" first
      else dictLookup "date" first

theorem setitem_shape (cache : Cache) (key value : String) (now : Int)
    (c : Cache) (h : SCAQMDCache.setitem cache key value now = .ok c) :
    ∃ table ts, parse_aqi_csv value = .ok table ∧
      tableTimestamp table = some ts ∧
      c = dictInsert key ⟨table, tableIsCurrent table, now, ts⟩ cache := by
  unfold SCAQMDCache.setitem at h
  split at h
  · cases h
  · cases h
  case h_3 table k0 first rest heq =>
    split at h
    · cases h
    case h_2 timestamp heq2 =>
      cases h
      exact ⟨_, _, heq, heq2, rfl⟩

/-- C1 (code bug): for a current-mode entry `next_update` truncates the
valid timestamp to its hour and moves one hour forward (21:00 ↦ 22:00,
21:59:30 ↦ 22:00), but at a valid timestamp in hour 23 the
`datetime(y, m, d, t.hour + 1)` call receives `hour = 24` and raises
`ValueError` instead of rolling over to midnight of the next day as the
claim (and the repository's own `test_update_new_day`) requires. -/
theorem claim_C1_next_update_current :
    SCAQMDSensor.next_update ⟨[], true, 0, .dt ⟨⟨2018, 6, 24, 21, 0, 0⟩, some 0⟩⟩
        = .ok ⟨⟨2018, 6, 24, 22, 0, 0⟩, some 0⟩
    ∧ SCAQMDSensor.next_update ⟨[], true, 0, .dt ⟨⟨2018, 6, 24, 21, 59, 30⟩, some 0⟩⟩
        = .ok ⟨⟨2018, 6, 24, 22, 0, 0⟩, some 0⟩
    ∧ SCAQMDSensor.next_update ⟨[], true, 0, .dt ⟨⟨2018, 6, 24, 23, 0, 0⟩, some 0⟩⟩
        = .error .valueError :=
  ⟨by decide, by decide, by decide⟩

/-- C2 (counterexample): starting from the state a fresh fetch of report
time 0 leaves (`next_update = 4000`), a first refetch of the same report
time moves `next_update` to 4500, but a second refetch of the same
report time moves it back to 4000 — not strictly later by the backoff
increment, because `parse_report_time` resets `next_update` to
`ts + update_delay` before the unchanged-page comparison. -/
theorem claim_C2_counterexample :
    (async_update sAqi0 5000 0 [["O3", "10"]] none).map (fun x => x.next_update)
        = .ok 4500
    ∧ ((async_update sAqi0 5000 0 [["O3", "10"]] none).bind
        (fun s1 => async_update s1 6000 0 [["O3", "10"]] none)).map
          (fun x => x.next_update)
        = .ok 4000
    ∧ (4000 : Int) < 4500 :=
  ⟨by decide, by decide, by decide⟩

/-- C2 (amended): a refetch performed past `next_update` that parses
report time `ts` leaves `last_update = ts` and `next_update =
ts + update_delay`, plus the backoff increment exactly when
`ts + update_delay` equals the pre-fetch `next_update`; the pending
delay does not accumulate across further same-timestamp refetches. -/
theorem claim_C2_backoff_step (s : CurrentAQI) (now ts : Int)
    (rows : List (List String)) (pageName : Option String)
    (s2 : CurrentAQI) (w : Nat)
    (hnow : s.next_update < now)
    (hparse : parse_aqi (parse_report_time s ts) rows = .ok (s2, w)) :
    (async_update s now ts rows pageName).map
        (fun x => (x.last_update, x.next_update))
      = .ok (ts, if ts + s.update_delay = s.next_update
                 then ts + s.update_delay + s.backoff_delay
                 else ts + s.update_delay) :=
  async_update_next s now ts rows pageName s2 w hnow hparse

theorem claim_C2_backoff_step_witness :
    (async_update sAqi0 5000 0 [["O3", "10"]] none).map
        (fun x => (x.last_update, x.next_update))
      = .ok (0, 4500) :=
  (claim_C2_backoff_step sAqi0 5000 0 [["O3", "10"]] none
      { sAqi0 with ozone := some 10 } 0 (by decide) (by decide)).trans (by decide)

/-- C3 (code bug): in `parse_aqi`, a data row whose second non-empty cell
fails integer parsing is not skipped: the warning is logged, but the
`value` variable still holds the previous row's parse, so the failed
row's pollutant field is assigned that stale value (here `PM10` gets
ozone's 10); and if the very first row fails, the assignment reads an
unbound `value` and an `UnboundLocalError` escapes the parser. -/
theorem claim_C3_parse_aqi_failed_row :
    parse_aqi sAqi0 [["O3", "10"], ["PM10", "n/a"]]
        = .ok ({ sAqi0 with ozone := some 10, particulate_matter_10 := some 10 }, 1)
    ∧ parse_aqi sAqi0 [["PM10", "n/a"]] = .error .nameError :=
  ⟨by decide, by decide⟩

/-- C4 (counterexample): for the forecast entry whose `validAsOf` is
Los Angeles midnight of 2018-06-25, `next_update` is noon of that same
date expressed in UTC (2018-06-25T19:00:00Z) — not noon of the
following date (which would be 2018-06-26T19:00:00Z). -/
theorem claim_C4_counterexample :
    ((SCAQMDCache.setitem [] "u" forecastPayload 0).map
        (fun c => (dictLookup "u" c).map SCAQMDSensor.next_update))
      = .ok (some (.ok ⟨⟨2018, 6, 25, 19, 0, 0⟩, some 0⟩))
    ∧ (Except.ok ⟨⟨2018, 6, 25, 19, 0, 0⟩, some 0⟩ : Except PyErr PyDatetime)
        ≠ .ok ⟨⟨2018, 6, 26, 19, 0, 0⟩, some 0⟩ :=
  ⟨by decide, by decide⟩

/-- C4 (amended): for every forecast entry whose `validAsOf` is the
Los Angeles localisation of midnight of a valid calendar date, the
computed `next_update` is local noon of that same calendar date in
America/Los_Angeles converted to UTC. -/
theorem claim_C4_forecast_noon_same_day (tbl : Table) (lu : Int)
    (y mo d : Nat) (dMid dNoon : Datetime)
    (hMid : pyDatetime y mo d 0 0 0 = some dMid)
    (hNoon : pyDatetime y mo d 12 0 0 = some dNoon) :
    SCAQMDSensor.next_update ⟨tbl, false, lu, .dt (localizeLA dMid)⟩
      = .ok (astimezoneUtc (localizeLA dNoon)) := by
  have hd : dMid = ⟨y, mo, d, 0, 0, 0⟩ := by
    unfold pyDatetime at hMid
    split at hMid
    · injection hMid with h2
      exact h2.symm
    · cases hMid
  subst hd
  unfold SCAQMDSensor.next_update localizeLA
  dsimp only
  rw [hNoon]
  simp

theorem claim_C4_forecast_noon_same_day_witness :
    SCAQMDSensor.next_update ⟨[], false, 7, .dt (localizeLA ⟨2018, 6, 25, 0, 0, 0⟩)⟩
      = .ok ⟨⟨2018, 6, 25, 19, 0, 0⟩, some 0⟩ :=
  (claim_C4_forecast_noon_same_day [] 7 2018 6 25 ⟨2018, 6, 25, 0, 0, 0⟩
      ⟨2018, 6, 25, 12, 0, 0⟩ (by decide) (by decide)).trans (by decide)

/-- C5 (counterexample): with the current-mode fixture entry cached
(`next_update` = 2018-06-24T22:00Z, instant 1529877600) and the last
fetch attempt 99 seconds ago, a read at a time strictly past
`next_update` performs no further fetch at all — the throttle suppresses
it and the state is returned unchanged — contradicting "a read made
after nextUpdate has passed performs exactly one further fetch". -/
theorem claim_C5_counterexample :
    awInstant ⟨⟨2018, 6, 24, 22, 0, 0⟩, some 0⟩ < 1529877700
    ∧ SCAQMDSensor.next_update entry2100 = .ok ⟨⟨2018, 6, 24, 22, 0, 0⟩, some 0⟩
    ∧ sensor_update ⟨[("u", entry2100)], some 1529877601, 1⟩ "u" currentPayload 1529877700
        = (.ok (), ⟨[("u", entry2100)], some 1529877601, 1⟩) :=
  ⟨by decide, by decide, by decide⟩

/-- C5 (amended): (1) a read while `now ≤ nextUpdate` of the cached entry
performs no fetch and leaves the state unchanged; (2) a read past
`nextUpdate` performs exactly one further fetch and stores the new entry
provided the 10-minute throttle interval since the last fetch attempt
has elapsed; (3) a read on a cache miss performs exactly one fetch,
stores the entry, and — when the stored entry is still fresh — fetches
nothing further, so two reads inside the entry's window cost one fetch
in total, the one that populated the entry. -/
theorem claim_C5_cache_freshness :
    (∀ (st : SysState) (url payload : String) (now : Int)
        (e : SCAQMDFile) (nu : PyDatetime),
        dictLookup url st.cache = some e →
        SCAQMDSensor.next_update e = .ok nu →
        now ≤ awInstant nu →
        sensor_update st url payload now = (.ok (), st))
    ∧ (∀ (st : SysState) (url payload : String) (now : Int)
        (e : SCAQMDFile) (nu : PyDatetime) (c2 : Cache),
        dictLookup url st.cache = some e →
        SCAQMDSensor.next_update e = .ok nu →
        awInstant nu < now →
        throttleAllows st now = true →
        SCAQMDCache.setitem st.cache url payload now = .ok c2 →
        sensor_update st url payload now
          = (.ok (), ⟨c2, some now, st.fetches + 1⟩))
    ∧ (∀ (st : SysState) (url payload : String) (now : Int)
        (c2 : Cache) (e2 : SCAQMDFile) (nu2 : PyDatetime),
        dictLookup url st.cache = none →
        SCAQMDCache.setitem st.cache url payload now = .ok c2 →
        dictLookup url c2 = some e2 →
        SCAQMDSensor.next_update e2 = .ok nu2 →
        now ≤ awInstant nu2 →
        sensor_update st url payload now
          = (.ok (), ⟨c2, some now, st.fetches + 1⟩)) := by
  refine ⟨?_, ?_, ?_⟩
  · intro st url payload now e nu h1 h2 h3
    simp [sensor_update, cache_getitem, h1, h2, not_lt.mpr h3]
  · intro st url payload now e nu c2 h1 h2 h3 h4 h5
    simp [sensor_update, cache_getitem, update_aqi_run, h1, h2, h3, h4, h5]
  · intro st url payload now c2 e2 nu2 h1 h2 h3 h4 h5
    simp [sensor_update, cache_getitem, update_aqi_run, h1, h2, h3, h4,
      not_lt.mpr h5]

theorem claim_C5_cache_freshness_witness :
    sensor_update ⟨[("u", entry2100)], some 0, 1⟩ "u" currentPayload 1529877600
      = (.ok (), ⟨[("u", entry2100)], some 0, 1⟩) :=
  claim_C5_cache_freshness.1 ⟨[("u", entry2100)], some 0, 1⟩ "u" currentPayload
    1529877600 entry2100 ⟨⟨2018, 6, 24, 22, 0, 0⟩, some 0⟩
    (by decide) (by decide) (by decide)

/-- C6: `air_quality_index` is exactly the maximum of the present
(non-`None`) sub-indices, undefined (`None`) when none is present; in
particular {ozone = 10, pm10 = 38} gives 38, and the fresh all-`None`
state gives `None`, not zero. -/
theorem claim_C6_air_quality_index_max :
    (∀ (s : CurrentAQI),
        (air_quality_index s = none ↔ presentSubindices s = [])
        ∧ ∀ v : Int, air_quality_index s = some v →
            v ∈ presentSubindices s ∧ ∀ w ∈ presentSubindices s, w ≤ v)
    ∧ air_quality_index
        { sAqi0 with ozone := some 10, particulate_matter_10 := some 38 }
        = some 38
    ∧ air_quality_index sAqi0 = none := by
  refine ⟨fun s => ⟨?_, ?_⟩, by decide, by decide⟩
  · exact List.max?_eq_none_iff
  · intro v h
    exact (List.max?_eq_some_iff (fun _ => le_refl _) (fun _ _ => max_choice _ _)
      (fun _ _ _ => max_le_iff)).1 h

theorem claim_C6_air_quality_index_max_witness :
    (38 : Int) ∈ presentSubindices
        { sAqi0 with ozone := some 10, particulate_matter_10 := some 38 }
    ∧ ∀ w ∈ presentSubindices
        { sAqi0 with ozone := some 10, particulate_matter_10 := some 38 },
        w ≤ (38 : Int) :=
  (claim_C6_air_quality_index_max.1
    { sAqi0 with ozone := some 10, particulate_matter_10 := some 38 }).2
    38 (by decide)

/-- C7: `nextUpdate` never depends on the fetch wall-clock time: (1) the
tabular `next_update` is unchanged under any `last_updated`; (2) storing
the same payload at two different fetch times yields entries with equal
`next_update`; (3) a scraped refetch of the same page at two different
wall-clock times (both past `next_update`) produces identical states. -/
theorem claim_C7_next_update_pure :
    (∀ (tbl : Table) (b : Bool) (lu1 lu2 : Int) (ts : Value),
        SCAQMDSensor.next_update ⟨tbl, b, lu1, ts⟩
          = SCAQMDSensor.next_update ⟨tbl, b, lu2, ts⟩)
    ∧ (∀ (cache : Cache) (key payload : String) (now1 now2 : Int)
        (c1 c2 : Cache) (e1 e2 : SCAQMDFile),
        SCAQMDCache.setitem cache key payload now1 = .ok c1 →
        SCAQMDCache.setitem cache key payload now2 = .ok c2 →
        dictLookup key c1 = some e1 →
        dictLookup key c2 = some e2 →
        SCAQMDSensor.next_update e1 = SCAQMDSensor.next_update e2)
    ∧ (∀ (s : CurrentAQI) (now1 now2 ts : Int) (rows : List (List String))
        (pageName : Option String),
        s.next_update < now1 → s.next_update < now2 →
        async_update s now1 ts rows pageName
          = async_update s now2 ts rows pageName) := by
  refine ⟨fun tbl b lu1 lu2 ts => rfl, ?_, ?_⟩
  · intro cache key payload now1 now2 c1 c2 e1 e2 hs1 hs2 hl1 hl2
    obtain ⟨t1, v1, hp1, ht1, hc1⟩ := setitem_shape cache key payload now1 c1 hs1
    obtain ⟨t2, v2, hp2, ht2, hc2⟩ := setitem_shape cache key payload now2 c2 hs2
    rw [hp1] at hp2
    cases hp2
    rw [ht1] at ht2
    cases ht2
    subst hc1
    subst hc2
    rw [dictLookup_dictInsert] at hl1 hl2
    cases hl1
    cases hl2
    exact next_update_last_updated ..
  · intro s now1 now2 ts rows pageName h1 h2
    unfold async_update
    rw [if_pos h1, if_pos h2]

theorem claim_C7_next_update_pure_witness :
    SCAQMDSensor.next_update ⟨tbl331, true, 5, ts2100⟩
      = SCAQMDSensor.next_update ⟨tbl331, true, 77, ts2100⟩ :=
  claim_C7_next_update_pure.2.1 [] "u" currentPayload 5 77
    [("u", ⟨tbl331, true, 5, ts2100⟩)] [("u", ⟨tbl331, true, 77, ts2100⟩)]
    ⟨tbl331, true, 5, ts2100⟩ ⟨tbl331, true, 77, ts2100⟩
    (by decide) (by decide) (by decide) (by decide)

/-- C8 (counterexample): the scaqmd tabular parser does not fail when the
header row is missing — the empty payload, which has no header at all,
parses to an empty table with no exception. -/
theorem claim_C8_counterexample : parse_aqi_csv "" = .ok [] := by decide

/-- C8 (amended): the aqmd variant fails (the `header.index` call raises
`ValueError`) whenever any required label is absent from the header row
— in particular on the empty payload, whose header is empty; the scaqmd
variant does no header validation: an empty or header-only payload
yields an empty table with no error; and both are pure total functions
on well-formed input, shown here evaluating to station tables. -/
theorem claim_C8_parser_header_validation :
    (∀ (text : String) (labels : List String) (lab : String),
        lab ∈ labels → listIndex (aqmdHeader text) lab = none →
        aqmd_parse_aqi_csv text labels = .error .valueError)
    ∧ aqmd_parse_aqi_csv "" CURRENT_LABELS = .error .valueError
    ∧ parse_aqi_csv headerOnlyPayload = .ok []
    ∧ (aqmd_parse_aqi_csv goodForecastPayload FORECAST_LABELS).isOk = true
    ∧ parse_aqi_csv currentPayload = .ok tbl331 := by
  refine ⟨?_, by decide, by decide, by decide, by decide⟩
  exact aqmd_parse_missing_column

theorem claim_C8_parser_header_validation_witness :
    aqmd_parse_aqi_csv "name,aqi\n1,2" CURRENT_LABELS = .error .valueError :=
  claim_C8_parser_header_validation.1 "name,aqi\n1,2" CURRENT_LABELS "sra"
    (by decide) (by decide)

/-- C9: reading the sensor state for a station id absent from the cached
table fails (Python raises `TypeError` subscripting the `None` that
`table.get` returned — the claim's `StationNotFoundError`) and the
system state, the cache included, is completely unchanged by the
failure. -/
theorem claim_C9_missing_station (st : SysState) (url payload : String)
    (now : Int) (sid : Int) (e : SCAQMDFile)
    (h1 : dictLookup url st.cache = some e)
    (h2 : dictLookup (Value.int sid) e.table = none) :
    sensor_state st url payload now sid = (.error .typeError, st) := by
  simp [sensor_state, sensor_station, cache_getitem, h1, h2]

theorem claim_C9_missing_station_witness :
    sensor_state ⟨[("u", entry2100)], none, 0⟩ "u" "" 0 99
      = (.error .typeError, ⟨[("u", entry2100)], none, 0⟩) :=
  claim_C9_missing_station ⟨[("u", entry2100)], none, 0⟩ "u" "" 0 99 entry2100
    (by decide) (by decide)

/-- C10: when a payload parses to a table with no station rows,
`__setitem__` raises (`StopIteration` at `next(iter(table.keys()))`)
before the cache assignment, so no entry is created and the previous
cache contents, including any entry under the same key, are retained
unchanged. -/
theorem claim_C10_setitem_atomic (cache : Cache) (key payload : String)
    (now : Int) (h : parse_aqi_csv payload = .ok []) :
    SCAQMDCache.setitemRun cache key payload now
      = (.error .stopIteration, cache) := by
  unfold SCAQMDCache.setitemRun SCAQMDCache.setitem
  rw [h]

theorem claim_C10_setitem_atomic_witness :
    SCAQMDCache.setitemRun [("u", entry2100)] "u" headerOnlyPayload 7
      = (.error .stopIteration, [("u", entry2100)]) :=
  claim_C10_setitem_atomic [("u", entry2100)] "u" headerOnlyPayload 7 (by decide)
